import Mathlib

/-!
Verification of the retrieval-augmented question-answering notebook
(`RAG-and-embeddings-solution.ipynb`).

The notebook's logic is two functions, `retrieve_texts` and `answer_query`.
They are shallowly embedded below.  External collaborators are modelled as
parameters:

* the sentence-embedding model is a function from a batch of strings to a
  batch of embedding vectors (`EmbedModel`);
* the FAISS index is a function from an embedding batch and `k` to a pair of
  two-dimensional arrays `(distances, indices)`, one row per query, exactly
  the shape `index.search` returns (`VectorIndex`);
* the Groq chat-completion endpoint is a function from an API key, a message
  list and a model identifier to a response carrying a list of choices
  (`ChatService`).

Distance values are `float32` in the real library; the code under
verification never computes with them (it only passes them through and, per
the spec, relies on the search returning them in ascending order), so they
are modelled by an abstract ordered scalar, `Int`.  Python exceptions
(`IndexError` from `indices[0]` or `token_split_texts[i]`, and from
`llm.choices[0]`) are modelled by `Option`: `none` is an uncaught fault.
Python list indexing resolves negative positions from the end of the list;
`pyGet` reproduces that exactly.
-/

/-- A dense embedding vector, abstracted. -/
abbrev Embedding := List Int

/-- The sentence-embedding model: `model.encode` maps a batch of strings to
a batch of embedding vectors. -/
structure EmbedModel where
  encode : List String → List Embedding

/-- The FAISS index: `index.search emb k` returns the pair
`(distances, indices)` of two-dimensional arrays, one row per query vector
in the batch. -/
structure VectorIndex where
  search : List Embedding → Nat → List (List Int) × List (List Int)

/-- Python list indexing semantics: a negative position counts from the end
of the list; a position outside `[-len, len)` raises `IndexError`, modelled
as `none`. -/
def pyIdx (n : Nat) (i : Int) : Option Nat :=
  let j : Int := if i < 0 then i + n else i
  if 0 ≤ j ∧ j < n then some j.toNat else none

/-- Python `xs[i]` for a list: negative positions resolve from the end,
out-of-range positions raise (`none`). -/
def pyGet (xs : List α) (i : Int) : Option α :=
  (pyIdx xs.length i).bind xs.get?

/-- A Python list comprehension `[f x for x in xs]` where evaluating `f`
may raise: the first failure aborts the whole comprehension. -/
def listComp (f : α → Option β) : List α → Option (List β)
  | [] => some []
  | x :: xs => do
    let y ← f x
    let ys ← listComp f xs
    pure (y :: ys)

/-- `retrieve_texts(query, k, index, token_split_texts, model)` from the
notebook: encode the query, search the index, keep the index positions `i`
of row 0 with `i < len(token_split_texts)`, look each survivor up in the
chunk list (Python indexing), and return the looked-up chunks together with
the full `distances` array. -/
def retrieve_texts (query : String) (k : Nat) (index : VectorIndex)
    (token_split_texts : List String) (model : EmbedModel) :
    Option (List String × List (List Int)) := do
  let query_embedding := model.encode [query]
  let (distances, indices) := index.search query_embedding k
  let row ← indices.get? 0
  let valid_indices := row.filter (fun i => decide (i < (token_split_texts.length : Int)))
  let retrieved_texts ← listComp (pyGet token_split_texts) valid_indices
  pure (retrieved_texts, distances)

/-- A model whose embeddings are irrelevant, for concrete evaluations. -/
def demoModel : EmbedModel := ⟨fun _ => [[0]]⟩

/-- An index returning the first `k` of the fixed nearest-neighbour result
`(distances, positions) = ([1, 2], [0, 1])`, for concrete evaluations. -/
def demoIndex : VectorIndex :=
  ⟨fun _ k => ([(List.take k [1, 2])], [(List.take k [0, 1])])⟩

/-- An index whose single search hit is the FAISS padding value `-1`,
reported when the index holds fewer than `k` vectors. -/
def padIndex : VectorIndex := ⟨fun _ _ => ([[7]], [[-1]])⟩

/-- C1: the claim is that a position is looked up in the chunk collection
iff `0 ≤ position < length`, with out-of-range positions silently filtered
and never resolved to some other chunk.  The code checks only
`i < len(token_split_texts)`, so the FAISS padding position `-1` passes the
filter and Python negative indexing resolves it to the LAST chunk: on
chunks `["a", "b"]` a search result `[-1]` yields `["b"]` instead of `[]`. -/
theorem retrieve_texts_negative_index_not_filtered :
    retrieve_texts "q" 1 padIndex ["a", "b"] demoModel = some (["b"], [[7]]) := by
  rfl

/-- C7: if the search honours the top-`k` contract at `k = 0` and returns an
empty row of positions, `retrieve_texts` returns an empty list of chunks. -/
theorem retrieve_texts_k_zero_empty (query : String) (index : VectorIndex)
    (token_split_texts : List String) (model : EmbedModel)
    (h : ((index.search (model.encode [query]) 0).2).get? 0 = some []) :
    retrieve_texts query 0 index token_split_texts model =
      some ([], (index.search (model.encode [query]) 0).1) := by
  rw [List.get?_eq_getElem?] at h
  unfold retrieve_texts
  simp [h, listComp]

/-- Witness for C7 at concrete inputs. -/
theorem retrieve_texts_k_zero_empty_witness :
    ((demoIndex.search (demoModel.encode ["q"]) 0).2).get? 0 = some [] ∧
    retrieve_texts "q" 0 demoIndex ["a", "b"] demoModel =
      some ([], (demoIndex.search (demoModel.encode ["q"]) 0).1) :=
  ⟨by rfl, retrieve_texts_k_zero_empty "q" demoIndex ["a", "b"] demoModel (by rfl)⟩

theorem listComp_length {f : α → Option β} :
    ∀ {xs : List α} {ys : List β}, listComp f xs = some ys → ys.length = xs.length := by
  intro xs
  induction xs with
  | nil => intro ys h; simp [listComp] at h; simp [← h]
  | cons x xs ih =>
    intro ys h
    simp only [listComp, Option.bind_eq_bind, Option.bind_eq_some, Option.pure_def,
      Option.some.injEq] at h
    obtain ⟨y, _, zs, hzs, rfl⟩ := h
    simp [ih hzs]

theorem listComp_mem {f : α → Option β} :
    ∀ {xs : List α} {ys : List β}, listComp f xs = some ys →
      ∀ y ∈ ys, ∃ x ∈ xs, f x = some y := by
  intro xs
  induction xs with
  | nil => intro ys h; simp [listComp] at h; subst h; simp
  | cons x xs ih =>
    intro ys h
    simp only [listComp, Option.bind_eq_bind, Option.bind_eq_some, Option.pure_def,
      Option.some.injEq] at h
    obtain ⟨y, hy, zs, hzs, rfl⟩ := h
    intro b hb
    rcases List.mem_cons.mp hb with rfl | hmem
    · exact ⟨x, List.mem_cons_self x xs, hy⟩
    · obtain ⟨a, ha, hfa⟩ := ih hzs b hmem
      exact ⟨a, List.mem_cons_of_mem x ha, hfa⟩

theorem pyGet_mem {xs : List α} {i : Int} {a : α} (h : pyGet xs i = some a) :
    ∃ p, p < xs.length ∧ xs.get? p = some a := by
  unfold pyGet at h
  cases hidx : pyIdx xs.length i with
  | none => rw [hidx] at h; simp at h
  | some j =>
    rw [hidx] at h
    simp only [Option.some_bind] at h
    obtain ⟨hj, _⟩ := List.get?_eq_some.mp h
    exact ⟨j, hj, h⟩

/-- C2: any successful `retrieve_texts` call returns at most `k` chunks
(the search, per its top-`k` contract, returned rows of at most `k`
entries), and every returned chunk occupies a position of the chunk
collection strictly below its length. -/
theorem retrieve_texts_at_most_k_and_in_bounds
    (query : String) (k : Nat) (index : VectorIndex)
    (token_split_texts : List String) (model : EmbedModel)
    (chunks : List String) (dists : List (List Int))
    (hk : ∀ row ∈ (index.search (model.encode [query]) k).2, row.length ≤ k)
    (hres : retrieve_texts query k index token_split_texts model = some (chunks, dists)) :
    chunks.length ≤ k ∧
      ∀ c ∈ chunks, ∃ p, p < token_split_texts.length ∧
        token_split_texts.get? p = some c := by
  unfold retrieve_texts at hres
  simp only [Option.bind_eq_bind, Option.bind_eq_some, Option.pure_def,
    Option.some.injEq, Prod.mk.injEq] at hres
  obtain ⟨row, hrow, retrieved, hcomp, hchunks, hdists⟩ := hres
  constructor
  · rw [← hchunks, listComp_length hcomp]
    exact le_trans (List.length_filter_le _ _) (hk row (List.get?_mem hrow))
  · intro c hc
    rw [← hchunks] at hc
    obtain ⟨i, _, hget⟩ := listComp_mem hcomp c hc
    exact pyGet_mem hget

/-- Witness for C2 at concrete inputs. -/
theorem retrieve_texts_at_most_k_and_in_bounds_witness :
    (∀ row ∈ (demoIndex.search (demoModel.encode ["q"]) 2).2, row.length ≤ 2) ∧
    retrieve_texts "q" 2 demoIndex ["a", "b", "c"] demoModel =
      some (["a", "b"], [[1, 2]]) ∧
    ((["a", "b"] : List String).length ≤ 2 ∧
      ∀ c ∈ (["a", "b"] : List String), ∃ p, p < (["a", "b", "c"] : List String).length ∧
        (["a", "b", "c"] : List String).get? p = some c) :=
  ⟨by decide, by rfl,
    retrieve_texts_at_most_k_and_in_bounds "q" 2 demoIndex ["a", "b", "c"] demoModel
      ["a", "b"] [[1, 2]] (by decide) (by rfl)⟩

/-- An index reporting a position (`5`) beyond a one-chunk collection. -/
def oobIndex : VectorIndex := ⟨fun _ _ => ([[1, 2]], [[0, 5]])⟩

/-- C10: `retrieve_texts` returns the distance array exactly as the search
reported it, with no filtering; hence when the search rows are aligned and
at least one position fails the bounds check, strictly fewer chunks than
distance entries come back, and the two components of the result pair have
different lengths. -/
theorem retrieve_texts_distances_unfiltered
    (query : String) (k : Nat) (index : VectorIndex)
    (token_split_texts : List String) (model : EmbedModel)
    (chunks : List String) (dists : List (List Int)) (drow irow : List Int)
    (hd : (index.search (model.encode [query]) k).1.get? 0 = some drow)
    (hi : (index.search (model.encode [query]) k).2.get? 0 = some irow)
    (halign : drow.length = irow.length)
    (hdrop : ∃ i ∈ irow, ¬ i < (token_split_texts.length : Int))
    (hres : retrieve_texts query k index token_split_texts model = some (chunks, dists)) :
    dists = (index.search (model.encode [query]) k).1 ∧
      chunks.length < drow.length := by
  unfold retrieve_texts at hres
  simp only [Option.bind_eq_bind, Option.bind_eq_some, Option.pure_def,
    Option.some.injEq, Prod.mk.injEq] at hres
  obtain ⟨row, hrow, retrieved, hcomp, hchunks, hdists⟩ := hres
  rw [hrow] at hi
  obtain rfl : row = irow := Option.some.inj hi
  refine ⟨hdists.symm, ?_⟩
  rw [← hchunks, listComp_length hcomp, halign]
  exact List.length_filter_lt_length_iff_exists.mpr (by simpa using hdrop)

/-- Witness for C10 at concrete inputs. -/
theorem retrieve_texts_distances_unfiltered_witness :
    (oobIndex.search (demoModel.encode ["q"]) 2).1.get? 0 = some [1, 2] ∧
    (oobIndex.search (demoModel.encode ["q"]) 2).2.get? 0 = some [0, 5] ∧
    ([1, 2] : List Int).length = ([0, 5] : List Int).length ∧
    (∃ i ∈ ([0, 5] : List Int), ¬ i < ((["a"] : List String).length : Int)) ∧
    retrieve_texts "q" 2 oobIndex ["a"] demoModel = some (["a"], [[1, 2]]) ∧
    (([[1, 2]] : List (List Int)) = (oobIndex.search (demoModel.encode ["q"]) 2).1 ∧
      (["a"] : List String).length < ([1, 2] : List Int).length) :=
  ⟨by rfl, by rfl, by rfl, by decide, by rfl,
    retrieve_texts_distances_unfiltered "q" 2 oobIndex ["a"] demoModel ["a"] [[1, 2]]
      [1, 2] [0, 5] (by rfl) (by rfl) (by rfl) (by decide) (by rfl)⟩

/-- The (distance, position) slots of a search row surviving the bounds
filter of `retrieve_texts`: each reported distance paired with the position
it was reported for, restricted to the slots whose chunk is returned. -/
def keptPairs (token_split_texts : List String) (drow irow : List Int) :
    List (Int × Int) :=
  (drow.zip irow).filter (fun q => decide (q.2 < (token_split_texts.length : Int)))

theorem map_snd_filter_zip {p : Int → Bool} :
    ∀ drow irow : List Int, drow.length = irow.length →
      ((drow.zip irow).filter (fun q => p q.2)).map Prod.snd = irow.filter p := by
  intro drow
  induction drow with
  | nil =>
    intro irow h
    cases irow with
    | nil => simp
    | cons i is => simp at h
  | cons d ds ih =>
    intro irow h
    cases irow with
    | nil => simp at h
    | cons i is =>
      simp only [List.zip_cons_cons, List.filter_cons]
      cases hp : p i <;> simp [hp, ih is (by simpa using h)]

/-- C3: the bounds filter preserves the relative order of the search
result: the distances reported for exactly the returned chunks form, in
order, a sublist of the search's distance row, so when that row is sorted
by ascending distance the returned chunks are ordered by non-decreasing
distance. -/
theorem retrieve_texts_sorted_by_distance
    (query : String) (k : Nat) (index : VectorIndex)
    (token_split_texts : List String) (model : EmbedModel)
    (chunks : List String) (dists : List (List Int)) (drow irow : List Int)
    (hd : (index.search (model.encode [query]) k).1.get? 0 = some drow)
    (hi : (index.search (model.encode [query]) k).2.get? 0 = some irow)
    (halign : drow.length = irow.length)
    (hsorted : drow.Sorted (· ≤ ·))
    (hres : retrieve_texts query k index token_split_texts model = some (chunks, dists)) :
    ((keptPairs token_split_texts drow irow).map Prod.fst).length = chunks.length ∧
      ((keptPairs token_split_texts drow irow).map Prod.fst).Sublist drow ∧
      ((keptPairs token_split_texts drow irow).map Prod.fst).Sorted (· ≤ ·) := by
  unfold retrieve_texts at hres
  simp only [Option.bind_eq_bind, Option.bind_eq_some, Option.pure_def,
    Option.some.injEq, Prod.mk.injEq] at hres
  obtain ⟨row, hrow, retrieved, hcomp, hchunks, hdists⟩ := hres
  rw [hrow] at hi
  rw [Option.some.inj hi] at hcomp
  have hsub : ((keptPairs token_split_texts drow irow).map Prod.fst).Sublist drow := by
    have h1 : (keptPairs token_split_texts drow irow).Sublist (drow.zip irow) :=
      List.filter_sublist _
    have h2 := h1.map Prod.fst
    rwa [List.map_fst_zip drow irow (le_of_eq halign)] at h2
  refine ⟨?_, hsub, List.Pairwise.sublist hsub hsorted⟩
  rw [List.length_map, ← hchunks, listComp_length hcomp]
  have hlen := congrArg List.length
    (map_snd_filter_zip (p := fun i => decide (i < (token_split_texts.length : Int)))
      drow irow halign)
  simpa [keptPairs] using hlen

/-- Witness for C3 at concrete inputs. -/
theorem retrieve_texts_sorted_by_distance_witness :
    (demoIndex.search (demoModel.encode ["q"]) 2).1.get? 0 = some [1, 2] ∧
    (demoIndex.search (demoModel.encode ["q"]) 2).2.get? 0 = some [0, 1] ∧
    ([1, 2] : List Int).length = ([0, 1] : List Int).length ∧
    ([1, 2] : List Int).Sorted (· ≤ ·) ∧
    retrieve_texts "q" 2 demoIndex ["a", "b", "c"] demoModel =
      some (["a", "b"], [[1, 2]]) ∧
    (((keptPairs ["a", "b", "c"] [1, 2] [0, 1]).map Prod.fst).length =
        (["a", "b"] : List String).length ∧
      ((keptPairs ["a", "b", "c"] [1, 2] [0, 1]).map Prod.fst).Sublist [1, 2] ∧
      ((keptPairs ["a", "b", "c"] [1, 2] [0, 1]).map Prod.fst).Sorted (· ≤ ·)) :=
  ⟨by rfl, by rfl, by rfl, by decide, by rfl,
    retrieve_texts_sorted_by_distance "q" 2 demoIndex ["a", "b", "c"] demoModel
      ["a", "b"] [[1, 2]] [1, 2] [0, 1] (by rfl) (by rfl) (by rfl) (by decide) (by rfl)⟩

/-- A role-tagged chat message. -/
structure Message where
  role : String
  content : String
deriving DecidableEq

/-- One completion choice of the remote response. -/
structure Choice where
  message : Message
deriving DecidableEq

/-- The remote chat-completion response: an ordered list of choices. -/
structure ChatResponse where
  choices : List Choice
deriving DecidableEq

/-- The remote chat-completion service, as seen by `answer_query`: the API
key the client was built with, the message list and the model identifier
determine the response. -/
abbrev ChatService := String → List Message → String → ChatResponse

/-- The fixed instructional template of `answer_query`, with the context
block and the query substituted in. -/
def groq_prompt (context query : String) : String :=
  "Answer the following question using the provided context. " ++
  "Explain it as if you are explaining it to a 5 year old.\n\n" ++
  "Context:\n" ++ context ++ "\n\n" ++
  "Question: " ++ query ++ "\nAnswer:"

/-- `answer_query(query, k, index, texts, groq_api_key)` from the notebook:
retrieve chunks, join them with a blank line, build the prompt, send it as
a single system message to the chat-completion service with the fixed model
identifier, and return the first choice's message content.  `llm.choices[0]`
on an empty choice list raises, modelled as `none`. -/
def answer_query (query : String) (k : Nat) (index : VectorIndex)
    (texts : List String) (groq_api_key : String)
    (model : EmbedModel) (chat : ChatService) : Option String := do
  let (retrieved_texts, _) ← retrieve_texts query k index texts model
  let context := String.intercalate "\n\n" retrieved_texts
  let prompt := groq_prompt context query
  let messages := [Message.mk "system" prompt]
  let llm := chat groq_api_key messages "llama-3.3-70b-versatile"
  let choice ← llm.choices.get? 0
  pure choice.message.content

/-- The tail of `answer_query` once the context block has been assembled:
build the prompt from a given context, send it, extract the first choice's
text. -/
def complete_with_context (context query groq_api_key : String)
    (chat : ChatService) : Option String := do
  let prompt := groq_prompt context query
  let messages := [Message.mk "system" prompt]
  let llm := chat groq_api_key messages "llama-3.3-70b-versatile"
  let choice ← llm.choices.get? 0
  pure choice.message.content

/-- A service answering "ok" regardless of the request. -/
def demoChat : ChatService := fun _ _ _ => ⟨[⟨⟨"assistant", "ok"⟩⟩]⟩

/-- A service returning an empty choice list. -/
def emptyChat : ChatService := fun _ _ _ => ⟨[]⟩

theorem answer_query_eq (query : String) (k : Nat) (index : VectorIndex)
    (texts : List String) (groq_api_key : String) (model : EmbedModel)
    (chat : ChatService) (chunks : List String) (dists : List (List Int))
    (hres : retrieve_texts query k index texts model = some (chunks, dists)) :
    answer_query query k index texts groq_api_key model chat =
      ((chat groq_api_key
          [Message.mk "system"
            (groq_prompt (String.intercalate "\n\n" chunks) query)]
          "llama-3.3-70b-versatile").choices.get? 0).bind
        (fun choice => some choice.message.content) := by
  unfold answer_query
  rw [hres]
  rfl

/-- C4: the context `answer_query` assembles is exactly the chunk list
returned by `retrieve_texts`, joined with a blank-line separator in
retrieval order and not otherwise modified: the call factors through
`complete_with_context` applied to that join. -/
theorem answer_query_context_is_join_of_chunks
    (query : String) (k : Nat) (index : VectorIndex) (texts : List String)
    (groq_api_key : String) (model : EmbedModel) (chat : ChatService)
    (chunks : List String) (dists : List (List Int))
    (hres : retrieve_texts query k index texts model = some (chunks, dists)) :
    answer_query query k index texts groq_api_key model chat =
      complete_with_context (String.intercalate "\n\n" chunks) query
        groq_api_key chat := by
  rw [answer_query_eq query k index texts groq_api_key model chat chunks dists hres]
  rfl

/-- Witness for C4 at concrete inputs. -/
theorem answer_query_context_is_join_of_chunks_witness :
    retrieve_texts "q" 2 demoIndex ["a", "b", "c"] demoModel =
      some (["a", "b"], [[1, 2]]) ∧
    answer_query "q" 2 demoIndex ["a", "b", "c"] "key" demoModel demoChat =
      complete_with_context (String.intercalate "\n\n" ["a", "b"]) "q" "key"
        demoChat :=
  ⟨by rfl,
    answer_query_context_is_join_of_chunks "q" 2 demoIndex ["a", "b", "c"] "key"
      demoModel demoChat ["a", "b"] [[1, 2]] (by rfl)⟩

/-- C5: whenever the remote response to the message `answer_query` sends has
a non-empty choice list, the returned value is exactly the first choice's
message content, unmodified. -/
theorem answer_query_returns_first_choice_content
    (query : String) (k : Nat) (index : VectorIndex) (texts : List String)
    (groq_api_key : String) (model : EmbedModel) (chat : ChatService)
    (chunks : List String) (dists : List (List Int)) (c : Choice)
    (rest : List Choice)
    (hres : retrieve_texts query k index texts model = some (chunks, dists))
    (hchoices :
      (chat groq_api_key
        [Message.mk "system" (groq_prompt (String.intercalate "\n\n" chunks) query)]
        "llama-3.3-70b-versatile").choices = c :: rest) :
    answer_query query k index texts groq_api_key model chat =
      some c.message.content := by
  rw [answer_query_eq query k index texts groq_api_key model chat chunks dists hres,
    hchoices]
  rfl

/-- Witness for C5 at concrete inputs. -/
theorem answer_query_returns_first_choice_content_witness :
    retrieve_texts "q" 2 demoIndex ["a", "b", "c"] demoModel =
      some (["a", "b"], [[1, 2]]) ∧
    (demoChat "key"
        [Message.mk "system" (groq_prompt (String.intercalate "\n\n" ["a", "b"]) "q")]
        "llama-3.3-70b-versatile").choices = Choice.mk (Message.mk "assistant" "ok") :: [] ∧
    answer_query "q" 2 demoIndex ["a", "b", "c"] "key" demoModel demoChat =
      some (Choice.mk (Message.mk "assistant" "ok")).message.content :=
  ⟨by rfl, by rfl,
    answer_query_returns_first_choice_content "q" 2 demoIndex ["a", "b", "c"] "key"
      demoModel demoChat ["a", "b"] [[1, 2]] (Choice.mk (Message.mk "assistant" "ok"))
      [] (by rfl) (by rfl)⟩

/-- C6: when the remote response to the message `answer_query` sends has an
empty choice list, `answer_query` raises (an uncaught `IndexError` from
`llm.choices[0]`, modelled as `none`) and returns no value. -/
theorem answer_query_empty_choices_fails
    (query : String) (k : Nat) (index : VectorIndex) (texts : List String)
    (groq_api_key : String) (model : EmbedModel) (chat : ChatService)
    (chunks : List String) (dists : List (List Int))
    (hres : retrieve_texts query k index texts model = some (chunks, dists))
    (hchoices :
      (chat groq_api_key
        [Message.mk "system" (groq_prompt (String.intercalate "\n\n" chunks) query)]
        "llama-3.3-70b-versatile").choices = []) :
    answer_query query k index texts groq_api_key model chat = none := by
  rw [answer_query_eq query k index texts groq_api_key model chat chunks dists hres,
    hchoices]
  rfl

/-- Witness for C6 at concrete inputs. -/
theorem answer_query_empty_choices_fails_witness :
    retrieve_texts "q" 2 demoIndex ["a", "b", "c"] demoModel =
      some (["a", "b"], [[1, 2]]) ∧
    (emptyChat "key"
        [Message.mk "system" (groq_prompt (String.intercalate "\n\n" ["a", "b"]) "q")]
        "llama-3.3-70b-versatile").choices = [] ∧
    answer_query "q" 2 demoIndex ["a", "b", "c"] "key" demoModel emptyChat = none :=
  ⟨by rfl, by rfl,
    answer_query_empty_choices_fails "q" 2 demoIndex ["a", "b", "c"] "key"
      demoModel emptyChat ["a", "b"] [[1, 2]] (by rfl) (by rfl)⟩

/-- C8: `answer_query` submits exactly one message, carrying the system
role, whose content is the fixed instructional template with the context
block (the blank-line join of the retrieved chunks) and the query
substituted in, to the service under the fixed model identifier
"llama-3.3-70b-versatile"; the returned value is the first choice of
exactly that call's response. -/
theorem answer_query_single_system_message_fixed_model
    (query : String) (k : Nat) (index : VectorIndex) (texts : List String)
    (groq_api_key : String) (model : EmbedModel) (chat : ChatService)
    (chunks : List String) (dists : List (List Int))
    (hres : retrieve_texts query k index texts model = some (chunks, dists)) :
    answer_query query k index texts groq_api_key model chat =
      ((chat groq_api_key
          [Message.mk "system"
            (groq_prompt (String.intercalate "\n\n" chunks) query)]
          "llama-3.3-70b-versatile").choices.get? 0).map
        (fun choice => choice.message.content) := by
  rw [answer_query_eq query k index texts groq_api_key model chat chunks dists hres]
  cases (chat groq_api_key
      [Message.mk "system" (groq_prompt (String.intercalate "\n\n" chunks) query)]
      "llama-3.3-70b-versatile").choices.get? 0 <;> rfl

/-- Witness for C8 at concrete inputs. -/
theorem answer_query_single_system_message_fixed_model_witness :
    retrieve_texts "q" 2 demoIndex ["a", "b", "c"] demoModel =
      some (["a", "b"], [[1, 2]]) ∧
    answer_query "q" 2 demoIndex ["a", "b", "c"] "key" demoModel demoChat =
      ((demoChat "key"
          [Message.mk "system"
            (groq_prompt (String.intercalate "\n\n" ["a", "b"]) "q")]
          "llama-3.3-70b-versatile").choices.get? 0).map
        (fun choice => choice.message.content) :=
  ⟨by rfl,
    answer_query_single_system_message_fixed_model "q" 2 demoIndex ["a", "b", "c"]
      "key" demoModel demoChat ["a", "b"] [[1, 2]] (by rfl)⟩

/-- The process-lifetime objects loaded once at start: the FAISS index and
the chunk collection. -/
structure RagState where
  index : VectorIndex
  token_split_texts : List String

/-- The call `index.search` threaded through the process state (per the
spec, nearest-neighbour query is the only operation the index supports,
and it is a read). -/
def search_st (emb : List Embedding) (k : Nat) (s : RagState) :
    (List (List Int) × List (List Int)) × RagState :=
  (s.index.search emb k, s)

/-- Reading the chunk collection from the process state. -/
def chunks_st (s : RagState) : List String × RagState :=
  (s.token_split_texts, s)

/-- `retrieve_texts` with every access to the index or the chunk collection
threaded through the process state, so that a mutation, were there any,
would show in the returned state. -/
def retrieve_texts_st (query : String) (k : Nat) (model : EmbedModel)
    (s0 : RagState) : Option (List String × List (List Int)) × RagState :=
  let query_embedding := model.encode [query]
  let ((distances, indices), s1) := search_st query_embedding k s0
  let (texts, s2) := chunks_st s1
  match indices.get? 0 with
  | none => (none, s2)
  | some row =>
    let valid_indices := row.filter (fun i => decide (i < (texts.length : Int)))
    match listComp (pyGet texts) valid_indices with
    | none => (none, s2)
    | some retrieved_texts => (some (retrieved_texts, distances), s2)

/-- `answer_query` threaded through the process state. -/
def answer_query_st (query : String) (k : Nat) (groq_api_key : String)
    (model : EmbedModel) (chat : ChatService) (s0 : RagState) :
    Option String × RagState :=
  let (r, s1) := retrieve_texts_st query k model s0
  match r with
  | none => (none, s1)
  | some (retrieved_texts, _) =>
    let context := String.intercalate "\n\n" retrieved_texts
    let prompt := groq_prompt context query
    let messages := [Message.mk "system" prompt]
    let llm := chat groq_api_key messages "llama-3.3-70b-versatile"
    match llm.choices.get? 0 with
    | none => (none, s1)
    | some choice => (some choice.message.content, s1)

theorem retrieve_texts_st_eq (query : String) (k : Nat) (model : EmbedModel)
    (s : RagState) :
    retrieve_texts_st query k model s =
      (retrieve_texts query k s.index s.token_split_texts model, s) := by
  cases hrow : ((s.index.search (model.encode [query]) k).2)[0]? with
  | none => simp [retrieve_texts_st, retrieve_texts, search_st, chunks_st, hrow]
  | some row =>
    cases hcomp : listComp (pyGet s.token_split_texts)
        (row.filter (fun i => decide (i < (s.token_split_texts.length : Int)))) with
    | none =>
      simp [retrieve_texts_st, retrieve_texts, search_st, chunks_st, hrow, hcomp]
    | some retrieved =>
      simp [retrieve_texts_st, retrieve_texts, search_st, chunks_st, hrow, hcomp]

theorem answer_query_st_eq (query : String) (k : Nat) (groq_api_key : String)
    (model : EmbedModel) (chat : ChatService) (s : RagState) :
    answer_query_st query k groq_api_key model chat s =
      (answer_query query k s.index s.token_split_texts groq_api_key model chat,
        s) := by
  cases hres : retrieve_texts query k s.index s.token_split_texts model with
  | none => simp [answer_query_st, answer_query, retrieve_texts_st_eq, hres]
  | some r =>
    obtain ⟨retrieved, dists⟩ := r
    cases hch : (chat groq_api_key
        [Message.mk "system"
          (groq_prompt (String.intercalate "\n\n" retrieved) query)]
        "llama-3.3-70b-versatile").choices[0]? with
    | none =>
      simp [answer_query_st, answer_query, retrieve_texts_st_eq, hres, hch]
    | some choice =>
      simp [answer_query_st, answer_query, retrieve_texts_st_eq, hres, hch]

/-- C9: neither operation mutates the vector index or the chunk collection:
run with every access threaded through the process state, both return the
state they were given, and compute the same results as the pure functions
of that state. -/
theorem retrieve_and_answer_preserve_state (query : String) (k : Nat)
    (groq_api_key : String) (model : EmbedModel) (chat : ChatService)
    (s : RagState) :
    (retrieve_texts_st query k model s).2 = s ∧
    (retrieve_texts_st query k model s).1 =
      retrieve_texts query k s.index s.token_split_texts model ∧
    (answer_query_st query k groq_api_key model chat s).2 = s ∧
    (answer_query_st query k groq_api_key model chat s).1 =
      answer_query query k s.index s.token_split_texts groq_api_key model chat := by
  rw [retrieve_texts_st_eq, answer_query_st_eq]
  exact ⟨rfl, rfl, rfl, rfl⟩
